import Mathlib

/-!
Verification of `src/read_function.py`: an AWS Lambda handler (`lambda_handler`)
that performs a single `table.scan()` against a DynamoDB table, returns the
items serialized as a JSON array in a 200 response envelope, and converts any
exception raised during the read into a 500 envelope carrying the error message.

The embedding models:
- JSON values and Python's `json.dumps` (default separators) on the fragment
  the handler produces;
- DynamoDB records as attribute-name/value mappings;
- the paged scan primitive (`Items`, optional `LastEvaluatedKey` continuation
  token), with the table contents given as a list of pages;
- the handler itself, parameterised over the outcome of the one `table.scan()`
  call it issues (success with a page, or a raised exception).
-/

namespace ReadFunction

/-- JSON values, as produced and consumed by Python's `json` module
(numbers restricted to integers, which is all DynamoDB attribute values
need here; records are pass-through containers). -/
inductive Json where
  | null : Json
  | bool (b : Bool) : Json
  | num (n : Int) : Json
  | str (s : String) : Json
  | arr (xs : List Json) : Json
  | obj (kvs : List (String × Json)) : Json

/-- Escaping of a single character inside a JSON string literal, as
`json.dumps` performs it for the common cases. -/
def escapeChar (c : Char) : String :=
  if c = '"' then "\\\""
  else if c = '\\' then "\\\\"
  else if c = '\n' then "\\n"
  else if c = '\t' then "\\t"
  else if c = '\r' then "\\r"
  else String.singleton c

/-- Escaping of a whole string for inclusion in a JSON string literal. -/
def escapeString (s : String) : String :=
  String.join (s.toList.map escapeChar)

mutual

/-- Python `json.dumps` with default separators: `", "` between elements
and members, `": "` between a key and its value. -/
def Json.dumps : Json → String
  | .null => "null"
  | .bool b => if b then "true" else "false"
  | .num n => toString n
  | .str s => "\"" ++ escapeString s ++ "\""
  | .arr xs => "[" ++ dumpsElems xs ++ "]"
  | .obj kvs => "\x7b" ++ dumpsMembers kvs ++ "\x7d"

/-- Serialization of the element list of a JSON array. -/
def dumpsElems : List Json → String
  | [] => ""
  | [x] => Json.dumps x
  | x :: y :: xs => Json.dumps x ++ ", " ++ dumpsElems (y :: xs)

/-- Serialization of the member list of a JSON object. -/
def dumpsMembers : List (String × Json) → String
  | [] => ""
  | [(k, v)] => "\"" ++ escapeString k ++ "\": " ++ Json.dumps v
  | (k, v) :: m :: kvs =>
      "\"" ++ escapeString k ++ "\": " ++ Json.dumps v ++ ", " ++ dumpsMembers (m :: kvs)

end

/-- A DynamoDB record: an opaque mapping from attribute name to a
dynamically-typed value. It serializes as a JSON object. -/
abbrev Record := List (String × Json)

/-- The HTTP-shaped response envelope the handler returns. -/
structure ResponseEnvelope where
  statusCode : Nat
  headers : List (String × String)
  body : String
deriving Repr, DecidableEq

/-- The fixed header set built in both branches of `lambda_handler`. -/
def fixedHeaders : List (String × String) :=
  [("Content-Type", "application/json"), ("Access-Control-Allow-Origin", "*")]

/-- Outcome of one `table.scan(...)` call: either a successful response with
its `Items` page and optional `LastEvaluatedKey` continuation token, or a
raised exception with message `str(e)`. -/
inductive ScanOutcome where
  | ok (items : List Record) (lastEvaluatedKey : Option Nat) : ScanOutcome
  | exn (msg : String) : ScanOutcome

/-- The `try` block of `lambda_handler`: call `table.scan()`, read
`response['Items']`, and build the 200 envelope with
`body = json.dumps(items)`. A raised exception propagates as `.error`. -/
def tryBlock (scanResult : ScanOutcome) : Except String ResponseEnvelope :=
  match scanResult with
  | .exn msg => .error msg
  | .ok items _ =>
      .ok { statusCode := 200
            headers := fixedHeaders
            body := Json.dumps (Json.arr (items.map Json.obj)) }

/-- The `except Exception as e` branch of `lambda_handler`: the 500 envelope
with `body = json.dumps({'error': str(e)})`. -/
def errorEnvelope (msg : String) : ResponseEnvelope :=
  { statusCode := 500
    headers := fixedHeaders
    body := Json.dumps (Json.obj [("error", Json.str msg)]) }

/-- `lambda_handler(event, context)` from `src/read_function.py`, as a
function of the outcome of the single `table.scan()` call it performs.
`event` and `context` are received but never consumed. -/
def lambda_handler {Event Context : Type} (event : Event) (context : Context)
    (scanResult : ScanOutcome) : ResponseEnvelope :=
  match tryBlock scanResult with
  | .ok resp => resp
  | .error msg => errorEnvelope msg

/-- The backing table's contents as the sequence of pages its scan API
yields: page `i` is `pages[i]`, and a scan of page `i` returns a
continuation token exactly when a further page exists. -/
structure TableState where
  pages : List (List Record)

/-- The table's true row count: the total number of records across pages. -/
def rowCount (t : TableState) : Nat := t.pages.flatten.length

/-- One page request against the table: returns page `i` and the
continuation token `i + 1` when more pages remain. `table.scan()` with no
token is `scanPage t 0`. -/
def scanPage (t : TableState) (i : Nat) : List Record × Option Nat :=
  (t.pages.getD i [], if i + 1 < t.pages.length then some (i + 1) else none)

/-- A non-faulting `table.scan()` on table `t`: the first page. -/
def scanFirst (t : TableState) : ScanOutcome :=
  ScanOutcome.ok (scanPage t 0).1 (scanPage t 0).2

/-- The handler run against a table `t` whose scan succeeds. -/
def lambda_handler_table {Event Context : Type} (event : Event) (context : Context)
    (t : TableState) : ResponseEnvelope :=
  lambda_handler event context (scanFirst t)

/-- The DynamoDB `scan` operation as a state transformer on the table:
read-only, so the table component of the result is unchanged; a `fault`
models an exception raised by the call (network, permission, throttling). -/
def TableState.scan (t : TableState) (fault : Option String) :
    ScanOutcome × TableState :=
  match fault with
  | some msg => (.exn msg, t)
  | none => (scanFirst t, t)

/-- The handler as a state transformer on the backing table: it issues the
one `table.scan()` call and builds its envelope; the resulting table state
is threaded through. -/
def lambda_handler_run {Event Context : Type} (event : Event) (context : Context)
    (fault : Option String) (t : TableState) : ResponseEnvelope × TableState :=
  match t.scan fault with
  | (s, t1) => (lambda_handler event context s, t1)

/-- The documented body shape: a JSON array of records (serialized as
objects) when the status is 200, a single-field error object with a string
value when the status is 500. -/
def bodySchema (status : Nat) (j : Json) : Prop :=
  (status = 200 ∧ ∃ recs : List Record, j = Json.arr (recs.map Json.obj)) ∨
  (status = 500 ∧ ∃ msg : String, j = Json.obj [("error", Json.str msg)])

/-- A concrete table whose contents span two scan pages: one record per
page, so the true row count is 2. -/
def twoPageTable : TableState :=
  ⟨[[[("id", Json.num 1)]], [[("id", Json.num 2)]]]⟩

/-- A concrete scan behaviour: the first page request succeeds with one
record and a continuation token, and any follow-up page request raises. -/
def page2Throws : Option Nat → ScanOutcome
  | none => ScanOutcome.ok [[("id", Json.num 1)]] (some 1)
  | some _ => ScanOutcome.exn "ProvisionedThroughputExceededException"

/-- C1: the handler does NOT follow continuation tokens. On a table whose
contents span two scan pages it succeeds with a 200 envelope whose body is
the JSON array of the first page's single record only, although the
table's true row count is 2 — the code evaluated at the failing input of
the pagination-completeness claim. -/
theorem first_page_only_at_two_page_table :
    (lambda_handler_table () () twoPageTable).statusCode = 200 ∧
    (lambda_handler_table () () twoPageTable).body =
      Json.dumps (Json.arr ((twoPageTable.pages.getD 0 []).map Json.obj)) ∧
    (twoPageTable.pages.getD 0 []).length = 1 ∧
    rowCount twoPageTable = 2 := by
  refine ⟨rfl, rfl, rfl, rfl⟩

/-- C2: for every invocation and every behaviour of the backing scan the
handler returns a well-formed envelope (status 200 or 500, the fixed
headers, a body in the image of the JSON serializer), and any exception
raised by the scan is converted into the 500 error envelope rather than
propagated. -/
theorem handler_never_raises {Event Context : Type} (event : Event)
    (context : Context) (s : ScanOutcome) :
    ((lambda_handler event context s).statusCode = 200 ∨
      (lambda_handler event context s).statusCode = 500) ∧
    (lambda_handler event context s).headers = fixedHeaders ∧
    (∃ j : Json, (lambda_handler event context s).body = Json.dumps j) ∧
    (∀ msg : String, s = ScanOutcome.exn msg →
      lambda_handler event context s = errorEnvelope msg) := by
  cases s with
  | ok items k =>
      exact ⟨Or.inl rfl, rfl, ⟨Json.arr (items.map Json.obj), rfl⟩,
        fun msg h => by cases h⟩
  | exn m =>
      exact ⟨Or.inr rfl, rfl, ⟨Json.obj [("error", Json.str m)], rfl⟩,
        fun msg h => by cases h; rfl⟩

/-- Witness for C2 at a concrete raised exception. -/
theorem handler_never_raises_witness :
    lambda_handler () () (ScanOutcome.exn "boom") = errorEnvelope "boom" :=
  (handler_never_raises () () (ScanOutcome.exn "boom")).2.2.2 "boom" rfl

/-- C3: when the first page succeeds with a continuation token and any
second page request would raise, the handler still returns a 200 envelope
carrying the first page's records — a partial success, not the 500 failure
envelope the claim requires, because the code never issues the second
request. The code evaluated at the failing input. -/
theorem partial_success_when_page2_would_throw :
    (lambda_handler () () (page2Throws none)).statusCode = 200 ∧
    (lambda_handler () () (page2Throws none)).statusCode ≠ 500 ∧
    (lambda_handler () () (page2Throws none)).body =
      Json.dumps (Json.arr [Json.obj [("id", Json.num 1)]]) := by
  refine ⟨rfl, by decide, rfl⟩

/-- C4: every envelope the handler returns, on success and on failure
alike, carries exactly the two fixed headers with their verbatim values. -/
theorem headers_always_fixed {Event Context : Type} (event : Event)
    (context : Context) (s : ScanOutcome) :
    (lambda_handler event context s).headers =
      [("Content-Type", "application/json"),
       ("Access-Control-Allow-Origin", "*")] := by
  cases s <;> rfl

/-- C5: every returned body is the serialization of a JSON value of the
documented shape: an array of records when the status is 200, an object
with a single string-valued error field when the status is 500. -/
theorem body_always_schema_json {Event Context : Type} (event : Event)
    (context : Context) (s : ScanOutcome) :
    ∃ j : Json, (lambda_handler event context s).body = Json.dumps j ∧
      bodySchema (lambda_handler event context s).statusCode j := by
  cases s with
  | ok items k =>
      exact ⟨Json.arr (items.map Json.obj), rfl, Or.inl ⟨rfl, items, rfl⟩⟩
  | exn m =>
      exact ⟨Json.obj [("error", Json.str m)], rfl, Or.inr ⟨rfl, m, rfl⟩⟩

/-- C6: if the scan raises on the first page request, the handler returns
the 500 envelope whose body is the JSON object with the failure's message
under the single key error. -/
theorem exn_first_page_gives_500 {Event Context : Type} (event : Event)
    (context : Context) (msg : String) :
    lambda_handler event context (ScanOutcome.exn msg) =
      { statusCode := 500
        headers := fixedHeaders
        body := Json.dumps (Json.obj [("error", Json.str msg)]) } := rfl

/-- C7: for an empty table (the scan yields no items and no continuation
token) the handler returns a 200 envelope whose body is exactly the
string of an empty JSON array. -/
theorem empty_table_gives_empty_array {Event Context : Type} (event : Event)
    (context : Context) (t : TableState) (h : scanPage t 0 = ([], none)) :
    lambda_handler_table event context t =
      { statusCode := 200, headers := fixedHeaders, body := "[]" } := by
  unfold lambda_handler_table scanFirst
  rw [h]
  rfl

/-- Witness for C7 at the concrete empty table. -/
theorem empty_table_gives_empty_array_witness :
    scanPage ⟨[]⟩ 0 = ([], none) ∧
    lambda_handler_table () () (⟨[]⟩ : TableState) =
      { statusCode := 200, headers := fixedHeaders, body := "[]" } :=
  ⟨rfl, empty_table_gives_empty_array () () ⟨[]⟩ rfl⟩

/-- C8: the handler is read-only: for every fault behaviour and every
table state, the table state after the handler runs equals the state
before — the handler issues only the scan, which does not mutate. -/
theorem handler_leaves_table_unchanged {Event Context : Type} (event : Event)
    (context : Context) (fault : Option String) (t : TableState) :
    (lambda_handler_run event context fault t).2 = t := by
  cases fault <;> rfl

/-- C9: the handler's result does not depend on the invocation event or
context: for the same scan outcome, any two invocations return identical
envelopes. -/
theorem handler_ignores_event_context {E1 C1 E2 C2 : Type} (e1 : E1)
    (c1 : C1) (e2 : E2) (c2 : C2) (s : ScanOutcome) :
    lambda_handler e1 c1 s = lambda_handler e2 c2 s := rfl

/-- C10: every envelope the handler returns has status code 200 or 500;
no other status code is ever produced. -/
theorem statusCode_only_200_or_500 {Event Context : Type} (event : Event)
    (context : Context) (s : ScanOutcome) :
    (lambda_handler event context s).statusCode = 200 ∨
    (lambda_handler event context s).statusCode = 500 := by
  cases s with
  | ok items k => exact Or.inl rfl
  | exn m => exact Or.inr rfl

end ReadFunction
